import Mathlib

/-!
Shallow embedding of the `sempler` repository's packaging manifest
(`setup.py`).  The manifest is a single call to `distutils.core.setup`
whose arguments are all string or list literals, except
`long_description`, which is `open('README.txt').read()`.

We model the argument record passed to `setup` as a structure, the
evaluation of the manifest as a function of the single external input
(the contents of `README.txt`, `none` when the file is missing), and
prove the claims of the specification against these definitions.
-/

/-- The record of keyword arguments passed to `setup(...)` in `setup.py`.
`entry_points` is `Option` because `setup.py` does not pass that argument. -/
structure SetupArgs where
  name : String
  version : String
  author : String
  author_email : String
  packages : List String
  scripts : List String
  url : String
  license : String
  description : String
  long_description : String
  install_requires : List String
  entry_points : Option (List String)
deriving Repr, DecidableEq

/-- The argument record built by `setup.py`, as a function of the contents
of `README.txt` (the only non-literal argument). Every field is copied
verbatim from the literals in `src/setup.py`. -/
def setupArgs (readme : String) : SetupArgs :=
  { name := "sempler"
    version := "0.1.1"
    author := "Juan L Gamella"
    author_email := "juangamella@gmail.com"
    packages := ["sempler", "sempler.test"]
    scripts := []
    url := "http://pypi.python.org/pypi/sempler/"
    license := "LICENSE.txt"
    description := "Sample from general structural causal models (SCMs)"
    long_description := readme
    install_requires := ["numpy==1.18.3", "networkx==2.2", "matplotlib==3.2.1"]
    entry_points := none }

/-- The possible outcome of evaluating `setup.py`: the only failure is the
`IOError` raised by `open('README.txt')` when the file is missing. -/
inductive ManifestError where
  | fileNotFound
deriving Repr, DecidableEq

/-- Evaluating the manifest: the input is the contents of `README.txt`
(`none` when the file cannot be opened).  `open(...).read()` runs while the
arguments of `setup` are being evaluated, so a missing file aborts the
script before `setup` is called; otherwise `setup` receives the full
argument record. -/
def evalSetupPy : Option String → Except ManifestError SetupArgs
  | none => Except.error ManifestError.fileNotFound
  | some readme => Except.ok (setupArgs readme)

/-- Split a character list at every `'.'` (the groups between dots). -/
def splitDots : List Char → List (List Char)
  | [] => [[]]
  | c :: cs =>
    if c = '.' then [] :: splitDots cs
    else
      match splitDots cs with
      | [] => [[c]]
      | g :: gs => (c :: g) :: gs

/-- A non-empty all-digit component with no leading zero (a semantic-version
numeric identifier). -/
def semverComponent (cs : List Char) : Bool :=
  decide (cs ≠ []) && cs.all Char.isDigit &&
    (cs.length == 1 || decide (cs.head? ≠ some '0'))

/-- A valid plain semantic version: exactly three dot-separated numeric
components, no leading zeros; all-digit components exclude any pre-release
(`-`) or build (`+`) suffix. -/
def isValidSemVer (s : String) : Bool :=
  match splitDots s.data with
  | [a, b, c] => semverComponent a && semverComponent b && semverComponent c
  | _ => false

/-- Split a character list at the first occurrence of `==`. -/
def breakAtEqEq : List Char → Option (List Char × List Char)
  | [] => none
  | '=' :: '=' :: rest => some ([], rest)
  | c :: rest =>
    match breakAtEqEq rest with
    | none => none
    | some (a, b) => some (c :: a, b)

/-- A requirement string pinned to a single fixed version with an
exact-equality specifier: `name==version` with non-empty name and version
and no further `=` on either side. -/
def isExactPin (s : String) : Bool :=
  match breakAtEqEq s.data with
  | none => false
  | some (n, v) =>
    decide (n ≠ []) && decide (v ≠ []) &&
      n.all (fun c => decide (c ≠ '=')) && v.all (fun c => decide (c ≠ '='))

/-- The parent of a dotted package name: everything before the last dot,
or `none` when the name has no dot. -/
def dottedParent (s : String) : Option String :=
  match s.data.reverse.dropWhile (fun c => decide (c ≠ '.')) with
  | [] => none
  | _ :: rest => some (String.mk rest.reverse)

/-- A package list is prefix-closed under dotted nesting: the parent of
every dotted entry is also in the list. -/
def prefixClosed (pkgs : List String) : Bool :=
  pkgs.all fun p =>
    match dottedParent p with
    | none => true
    | some q => pkgs.contains q

/-- Claim C1: the manifest declares package name `sempler` and version
string `0.1.1` as the `name` and `version` arguments of `setup()`. -/
theorem c1_name_and_version (readme : String) :
    (setupArgs readme).name = "sempler" ∧ (setupArgs readme).version = "0.1.1" :=
  ⟨rfl, rfl⟩

/-- Claim C2: the declared package list is non-empty and is exactly the
two entries `sempler` and `sempler.test`, the second nested inside the
first under dotted naming. -/
theorem c2_packages (readme : String) :
    (setupArgs readme).packages ≠ [] ∧
    (setupArgs readme).packages = ["sempler", "sempler.test"] ∧
    "sempler.test" = "sempler" ++ "." ++ "test" :=
  ⟨show ["sempler", "sempler.test"] ≠ [] by decide, rfl, rfl⟩

/-- Claim C3: the manifest declares exactly three runtime dependencies,
each pinned with an exact-equality specifier: `numpy==1.18.3`,
`networkx==2.2`, `matplotlib==3.2.1`. -/
theorem c3_install_requires (readme : String) :
    (setupArgs readme).install_requires =
      ["numpy==1.18.3", "networkx==2.2", "matplotlib==3.2.1"] ∧
    (setupArgs readme).install_requires.length = 3 ∧
    (setupArgs readme).install_requires.all isExactPin = true :=
  ⟨rfl, rfl,
    show List.all ["numpy==1.18.3", "networkx==2.2", "matplotlib==3.2.1"] isExactPin = true
      by decide⟩

/-- Claim C4: no command-line entry points or scripts are registered:
`scripts` is the empty list and no `entry_points` argument is passed. -/
theorem c4_no_scripts (readme : String) :
    (setupArgs readme).scripts = [] ∧ (setupArgs readme).entry_points = none :=
  ⟨rfl, rfl⟩

/-- Claim C5: the `long_description` argument is not a fixed literal: it is
exactly the contents of the external file read when the manifest is
evaluated, so different file contents yield different values. -/
theorem c5_long_description_from_file :
    (∀ readme : String, (setupArgs readme).long_description = readme) ∧
    (setupArgs "a").long_description ≠ (setupArgs "b").long_description :=
  ⟨fun _ => rfl, by decide⟩

/-- Claim C6: evaluating the manifest fails when `README.txt` is missing
(the infrastructure error from `open`), and there is no other error path:
with any file contents, evaluation succeeds. -/
theorem c6_only_error_is_missing_file :
    evalSetupPy none = Except.error ManifestError.fileNotFound ∧
    ∀ readme : String, (evalSetupPy (some readme)).isOk = true :=
  ⟨rfl, fun _ => rfl⟩

/-- Claim C7: the declared version string `0.1.1` is a valid plain semantic
version: three dot-separated numeric components without leading zeros and
without pre-release or build suffix. -/
theorem c7_semver (readme : String) :
    isValidSemVer (setupArgs readme).version = true :=
  show isValidSemVer "0.1.1" = true by decide

/-- Claim C8: registration is atomic in the single fallible step: when the
read of `README.txt` fails, `setup` is never invoked and no metadata is
produced; when it succeeds, `setup` receives the complete argument
record. -/
theorem c8_atomic_registration :
    evalSetupPy none = Except.error ManifestError.fileNotFound ∧
    ∀ readme : String, evalSetupPy (some readme) = Except.ok (setupArgs readme) :=
  ⟨rfl, fun _ => rfl⟩

/-- Claim C9: the declared package list is prefix-closed under dotted
nesting: the parent `sempler` of the dotted entry `sempler.test` is also
declared. -/
theorem c9_prefix_closed (readme : String) :
    prefixClosed (setupArgs readme).packages = true :=
  show prefixClosed ["sempler", "sempler.test"] = true by decide

/-- Claim C10: evaluation is deterministic in its single external input:
every field of the argument record except `long_description` is the same
constant for all file contents, and `long_description` is exactly the file
contents, so equal contents give identical metadata. -/
theorem c10_deterministic :
    (∀ c₁ c₂ : String,
      { setupArgs c₁ with long_description := (setupArgs c₂).long_description }
        = setupArgs c₂) ∧
    (∀ c : String, (setupArgs c).long_description = c) :=
  ⟨fun _ _ => rfl, fun _ => rfl⟩
